import Mathlib

/-!
Shallow embedding of the audio-visualizer core (src/js/app.js and
src/js/visualizer.js): the clip-segmented capture state machine, the
frame-rate gate of the render loop, settings updates, the color-scheme
computation, and the bar/wave/ring geometry of the five visual styles.
All numeric quantities are modelled as exact rationals.
-/

namespace AudioViz

/-! ## Capture state machine (src/js/app.js) -/

/-- The `appState` global of app.js: one of `'idle'`, `'recording'`, `'paused'`. -/
inductive AppState where
  | idle
  | recording
  | paused
deriving DecidableEq, Repr

/-- The mutable globals of app.js that make up one capture session:
`appState`, `clipCounter`, `recordedChunks` (abstract data fragments), and
the list of finalized clip artifacts (the download links created by
`createDownloadLink`), each remembered by the `clipCounter` value it was
tagged with. -/
structure CaptureSession where
  appState : AppState
  clipCounter : ℕ
  recordedChunks : List ℕ
  artifacts : List ℕ
deriving DecidableEq, Repr

/-- Source `mediaRecorder.onstop` (app.js): builds a blob from `recordedChunks`,
clears `recordedChunks`, and `createDownloadLink` appends one artifact
tagged with the current `clipCounter`. -/
def recorderOnStop (s : CaptureSession) : CaptureSession :=
  { s with recordedChunks := [], artifacts := s.artifacts ++ [s.clipCounter] }

/-- Source `handleStart` (app.js): returns immediately unless idle; the try block
sets `appState` to `'recording'` and increments `clipCounter`, then awaits
audio setup, audio-context resume and playback. `ok` says whether those
external steps succeed; on failure the catch block resets `appState` to
`'idle'` (the clip-counter increment is not undone). -/
def handleStart (ok : Bool) (s : CaptureSession) : CaptureSession :=
  if s.appState ≠ .idle then s
  else if ok then { s with appState := .recording, clipCounter := s.clipCounter + 1 }
  else { s with appState := .idle, clipCounter := s.clipCounter + 1 }

/-- Source `handlePause` (app.js): returns unless recording; sets `appState` to
`'paused'` and stops the recorder, which finalizes the current clip. -/
def handlePause (s : CaptureSession) : CaptureSession :=
  if s.appState ≠ .recording then s
  else recorderOnStop { s with appState := .paused }

/-- Source `handleResume` (app.js): returns unless paused; sets `appState` to
`'recording'`, increments `clipCounter` and restarts the recorder. -/
def handleResume (s : CaptureSession) : CaptureSession :=
  if s.appState ≠ .paused then s
  else { s with appState := .recording, clipCounter := s.clipCounter + 1 }

/-- Source `handleStop` (app.js): returns if idle; if recording, stops the
recorder (finalizing the last clip); always ends in `'idle'`. -/
def handleStop (s : CaptureSession) : CaptureSession :=
  if s.appState = .idle then s
  else if s.appState = .recording then { recorderOnStop s with appState := .idle }
  else { s with appState := .idle }

/-- The four capture requests of the state machine, with `start` taken on
its success path (failures are modelled by `handleStart false`). -/
inductive CaptureOp where
  | start
  | pause
  | resume
  | stop
deriving DecidableEq, Repr

/-- One capture request dispatched to its handler. -/
def captureStep : CaptureOp → CaptureSession → CaptureSession
  | .start, s => handleStart true s
  | .pause, s => handlePause s
  | .resume, s => handleResume s
  | .stop, s => handleStop s

/-- The initial globals of app.js: `appState = 'idle'`, `clipCounter = 0`,
`recordedChunks = []`, no download links. -/
def initialSession : CaptureSession := ⟨.idle, 0, [], []⟩

/-- Claim C1: from idle with clip counter 0, start→pause→resume→stop
finalizes exactly the artifacts tagged 1 and 2; start→stop finalizes
exactly the artifact tagged 1; pause while idle changes nothing; and in
general a capture operation increments the clip counter exactly when it
transitions the machine into `recording`, and appends exactly one artifact
(tagged with the counter of the segment being closed) exactly when it
transitions out of `recording`. -/
theorem c1_capture_clip_invariant :
    (handleStop (handleResume (handlePause (handleStart true initialSession)))).artifacts
        = [1, 2] ∧
    (handleStop (handleStart true initialSession)).artifacts = [1] ∧
    handlePause initialSession = initialSession ∧
    ∀ (op : CaptureOp) (s : CaptureSession),
      (((captureStep op s).appState = .recording ∧ s.appState ≠ .recording) →
        (captureStep op s).clipCounter = s.clipCounter + 1) ∧
      (¬((captureStep op s).appState = .recording ∧ s.appState ≠ .recording) →
        (captureStep op s).clipCounter = s.clipCounter) ∧
      ((s.appState = .recording ∧ (captureStep op s).appState ≠ .recording) →
        (captureStep op s).artifacts = s.artifacts ++ [s.clipCounter]) ∧
      (¬(s.appState = .recording ∧ (captureStep op s).appState ≠ .recording) →
        (captureStep op s).artifacts = s.artifacts) := by
  refine ⟨by decide, by decide, by decide, ?_⟩
  intro op s
  obtain ⟨a, c, rc, ar⟩ := s
  cases op <;> cases a <;>
    simp [captureStep, handleStart, handlePause, handleResume, handleStop, recorderOnStop]

theorem c1_capture_clip_invariant_witness :
    (captureStep .resume ⟨.paused, 7, [3], [4]⟩).clipCounter = 7 + 1 ∧
    (captureStep .pause ⟨.recording, 2, [5], [9]⟩).artifacts = [9] ++ [2] := by
  have h := c1_capture_clip_invariant
  exact ⟨(h.2.2.2 .resume ⟨.paused, 7, [3], [4]⟩).1 (by decide),
    (h.2.2.2 .pause ⟨.recording, 2, [5], [9]⟩).2.2.1 (by decide)⟩

/-- Claim C3, counterexample: when the external steps of `handleStart`
fail on the initial idle session, the session is not restored to its value
from before the call — the clip counter has become 1. -/
theorem c3_start_failure_counterexample :
    handleStart false initialSession ≠ initialSession ∧
    (handleStart false initialSession).clipCounter = 1 := by decide

/-- Claim C3 (amended): if the audio setup / resume / playback steps of
`handleStart` fail while idle, the controller returns to `'idle'` and the
recorded-fragment list and the artifacts are unchanged, but the clip
counter is left incremented by one — it is not rolled back. -/
theorem c3_start_failure_amended (s : CaptureSession) (h : s.appState = .idle) :
    handleStart false s =
      { s with appState := .idle, clipCounter := s.clipCounter + 1 } := by
  simp [handleStart, h]

theorem c3_start_failure_amended_witness :
    handleStart false initialSession =
      { initialSession with appState := .idle, clipCounter := 1 } :=
  c3_start_failure_amended initialSession rfl

/-- Claim C8: every out-of-state capture request — start while not idle,
pause while not recording, resume while not paused, stop while idle — is a
silent no-op leaving the whole session (state, clip counter, fragments,
artifacts) unchanged. -/
theorem c8_out_of_state_noop (s : CaptureSession) (ok : Bool) :
    (s.appState ≠ .idle → handleStart ok s = s) ∧
    (s.appState ≠ .recording → handlePause s = s) ∧
    (s.appState ≠ .paused → handleResume s = s) ∧
    (s.appState = .idle → handleStop s = s) := by
  refine ⟨fun h => ?_, fun h => ?_, fun h => ?_, fun h => ?_⟩ <;>
    simp [handleStart, handlePause, handleResume, handleStop, h]

theorem c8_out_of_state_noop_witness :
    handleStart true ⟨.recording, 1, [], []⟩ = ⟨.recording, 1, [], []⟩ ∧
    handlePause ⟨.idle, 0, [], []⟩ = ⟨.idle, 0, [], []⟩ ∧
    handleResume ⟨.recording, 1, [2], [1]⟩ = ⟨.recording, 1, [2], [1]⟩ ∧
    handleStop ⟨.idle, 3, [], [1, 2]⟩ = ⟨.idle, 3, [], [1, 2]⟩ := by
  exact ⟨(c8_out_of_state_noop ⟨.recording, 1, [], []⟩ true).1 (by decide),
    (c8_out_of_state_noop ⟨.idle, 0, [], []⟩ true).2.1 (by decide),
    (c8_out_of_state_noop ⟨.recording, 1, [2], [1]⟩ true).2.2.1 (by decide),
    (c8_out_of_state_noop ⟨.idle, 3, [], [1, 2]⟩ true).2.2.2 (by decide)⟩

/-! ## Visualizer state and settings (src/js/visualizer.js) -/

/-- Source `this.settings` of the AudioVisualizer constructor. `colorTheme` is an
`Option String` so that a null/undefined theme can be represented. -/
structure Settings where
  barStyle : String
  sensitivity : ℚ
  colorTheme : Option String
  animationSpeed : ℚ
  position : String
  barCount : ℕ
  mirrorMode : String
  glowIntensity : ℚ
  frameRate : ℕ
deriving DecidableEq, Repr

/-- The constructor defaults of `this.settings`. -/
def defaultSettings : Settings :=
  { barStyle := "gradient", sensitivity := 1.5, colorTheme := some "default",
    animationSpeed := 1.0, position := "bottom", barCount := 64,
    mirrorMode := "none", glowIntensity := 0, frameRate := 30 }

/-- The AudioVisualizer instance fields that the claims touch: the
settings, the canvas dimensions, the analyzer output (`dataArray` is null
until `setupAudio` runs and `bufferLength` is 0), the frame-scheduler
fields, the accumulated animation phase, and the background-cache flag. -/
structure AudioVisualizer where
  settings : Settings
  canvasWidth : ℚ
  canvasHeight : ℚ
  dataArray : Option (List ℕ)
  bufferLength : ℕ
  lastFrameTime : ℚ
  targetFrameInterval : ℚ
  animationFrame : ℚ
  backgroundNeedsUpdate : Bool
deriving DecidableEq, Repr

/-- A `Partial<VisualSettings>` record as passed to `updateSettings`: every
field may be absent. -/
structure SettingsUpdate where
  barStyle : Option String := none
  sensitivity : Option ℚ := none
  colorTheme : Option (Option String) := none
  animationSpeed : Option ℚ := none
  position : Option String := none
  barCount : Option ℕ := none
  mirrorMode : Option String := none
  glowIntensity : Option ℚ := none
  frameRate : Option ℕ := none
  width : Option ℚ := none
  height : Option ℚ := none
deriving DecidableEq, Repr

/-- Source `updateCanvasSize` (visualizer.js): each dimension is assigned only
when a truthy value is given, and the background cache is marked stale. -/
def updateCanvasSize (w hgt : Option ℚ) (v : AudioVisualizer) : AudioVisualizer :=
  let v1 := match w with
    | some x => if x = 0 then v else { v with canvasWidth := x }
    | none => v
  let v2 := match hgt with
    | some y => if y = 0 then v1 else { v1 with canvasHeight := y }
    | none => v1
  { v2 with backgroundNeedsUpdate := true }

/-- Source `updateSettings` (visualizer.js): spread-merge the given fields into
`settings`; a truthy `frameRate` recomputes `targetFrameInterval` as
`1000 / frameRate`; a truthy `width` or `height` calls `updateCanvasSize`. -/
def updateSettings (p : SettingsUpdate) (v : AudioVisualizer) : AudioVisualizer :=
  let s := v.settings
  let merged : Settings :=
    { barStyle := p.barStyle.getD s.barStyle,
      sensitivity := p.sensitivity.getD s.sensitivity,
      colorTheme := p.colorTheme.getD s.colorTheme,
      animationSpeed := p.animationSpeed.getD s.animationSpeed,
      position := p.position.getD s.position,
      barCount := p.barCount.getD s.barCount,
      mirrorMode := p.mirrorMode.getD s.mirrorMode,
      glowIntensity := p.glowIntensity.getD s.glowIntensity,
      frameRate := p.frameRate.getD s.frameRate }
  let v1 := { v with settings := merged }
  let v2 := match p.frameRate with
    | some fr => if fr = 0 then v1 else { v1 with targetFrameInterval := 1000 / (fr : ℚ) }
    | none => v1
  let widthTruthy : Bool := match p.width with
    | some x => decide (x ≠ 0)
    | none => false
  let heightTruthy : Bool := match p.height with
    | some y => decide (y ≠ 0)
    | none => false
  if widthTruthy || heightTruthy then updateCanvasSize p.width p.height v2 else v2

/-- Source `updateCanvasSize` never touches the scheduler interval. -/
theorem updateCanvasSize_targetFrameInterval (w hgt : Option ℚ) (v : AudioVisualizer) :
    (updateCanvasSize w hgt v).targetFrameInterval = v.targetFrameInterval := by
  unfold updateCanvasSize
  cases w <;> cases hgt <;> dsimp only <;> (try split_ifs) <;> rfl

/-- Source `updateCanvasSize` never touches `lastFrameTime`. -/
theorem updateCanvasSize_lastFrameTime (w hgt : Option ℚ) (v : AudioVisualizer) :
    (updateCanvasSize w hgt v).lastFrameTime = v.lastFrameTime := by
  unfold updateCanvasSize
  cases w <;> cases hgt <;> dsimp only <;> (try split_ifs) <;> rfl

/-- Source `updateSettings` never touches `lastFrameTime`. -/
theorem updateSettings_lastFrameTime (p : SettingsUpdate) (v : AudioVisualizer) :
    (updateSettings p v).lastFrameTime = v.lastFrameTime := by
  unfold updateSettings
  cases hfr : p.frameRate <;> dsimp only <;> (try split_ifs) <;>
    simp [updateCanvasSize_lastFrameTime]

/-- With a truthy `frameRate` field, `updateSettings` sets the scheduler
interval to `1000 / frameRate`. -/
theorem updateSettings_interval_some (p : SettingsUpdate) (v : AudioVisualizer)
    (fr : ℕ) (hfr : p.frameRate = some fr) (hne : fr ≠ 0) :
    (updateSettings p v).targetFrameInterval = 1000 / (fr : ℚ) := by
  unfold updateSettings
  rw [hfr]
  dsimp only
  rw [if_neg hne]
  split_ifs <;> simp [updateCanvasSize_targetFrameInterval]

/-- With no `frameRate` field, `updateSettings` leaves the scheduler
interval unchanged. -/
theorem updateSettings_interval_none (p : SettingsUpdate) (v : AudioVisualizer)
    (hfr : p.frameRate = none) :
    (updateSettings p v).targetFrameInterval = v.targetFrameInterval := by
  unfold updateSettings
  rw [hfr]
  dsimp only
  split_ifs <;> simp [updateCanvasSize_targetFrameInterval]

/-- Claim C9: a settings update carrying a (valid) `frameRate` sets
`targetFrameInterval` to `1000 / frameRate` and leaves `lastFrameTime`
unchanged (no forced immediate frame); an update without `frameRate`
leaves both scheduler fields unchanged, whatever other fields it carries. -/
theorem c9_update_settings_scheduling (p : SettingsUpdate) (v : AudioVisualizer) :
    (∀ fr : ℕ, p.frameRate = some fr → 0 < fr →
      (updateSettings p v).targetFrameInterval = 1000 / (fr : ℚ) ∧
      (updateSettings p v).lastFrameTime = v.lastFrameTime) ∧
    (p.frameRate = none →
      (updateSettings p v).targetFrameInterval = v.targetFrameInterval ∧
      (updateSettings p v).lastFrameTime = v.lastFrameTime) := by
  refine ⟨fun fr hfr hpos => ⟨?_, updateSettings_lastFrameTime p v⟩,
    fun hfr => ⟨updateSettings_interval_none p v hfr, updateSettings_lastFrameTime p v⟩⟩
  exact updateSettings_interval_some p v fr hfr (Nat.pos_iff_ne_zero.mp hpos)

/-! ## Frame scheduler (the gate at the top of `loop`, visualizer.js) -/

/-- The per-repaint frame gate of `loop` (visualizer.js): skip and return
false when `timestamp - lastFrameTime < targetFrameInterval`, else record
`lastFrameTime = timestamp` and compute a frame. -/
def loopGate (t : ℚ) (v : AudioVisualizer) : Bool × AudioVisualizer :=
  if t - v.lastFrameTime < v.targetFrameInterval then (false, v)
  else (true, { v with lastFrameTime := t })

/-- The gate decisions for a sequence of repaint timestamps. -/
def loopGateSeq (ts : List ℚ) (v : AudioVisualizer) : List Bool :=
  match ts with
  | [] => []
  | t :: rest => (loopGate t v).1 :: loopGateSeq rest (loopGate t v).2

/-- The constructor state of the AudioVisualizer (canvas dimensions taken
from a concrete 640×480 canvas): `lastFrameTime = 0`,
`targetFrameInterval = 1000 / 30`, no analyzer. -/
def initialVisualizer : AudioVisualizer :=
  { settings := defaultSettings, canvasWidth := 640, canvasHeight := 480,
    dataArray := none, bufferLength := 0, lastFrameTime := 0,
    targetFrameInterval := 1000 / 30, animationFrame := 0,
    backgroundNeedsUpdate := true }

/-- Claim C2, counterexample: with `frameRate = 30` and `lastFrameTime`
initially 0, the timestamps 0, 10, 20, 40 do NOT yield the claimed
decisions `true, false, false, true`: the 0 ms call is skipped, because
`0 − 0 < 1000/30` — exactly the skip condition the claim itself states. -/
theorem c2_scheduler_counterexample :
    loopGateSeq [0, 10, 20, 40] initialVisualizer ≠ [true, false, false, true] ∧
    (loopGate 0 initialVisualizer).1 = false := by
  norm_num [loopGateSeq, loopGate, initialVisualizer]

/-- Claim C2 (amended): with `frameRate = 30` and `lastFrameTime` initially
0, the timestamps 0, 10, 20, 40 yield decisions false, false, false, true;
in general a frame is computed exactly when
`timestamp − lastFrameTime ≥ targetFrameInterval`, in which case
`lastFrameTime` becomes the timestamp and nothing else changes, and
otherwise the state is untouched; changing `frameRate` to 60 mid-sequence
changes only the threshold used by subsequent calls. -/
theorem c2_scheduler_amended :
    loopGateSeq [0, 10, 20, 40] initialVisualizer = [false, false, false, true] ∧
    (∀ (t : ℚ) (v : AudioVisualizer),
      ((loopGate t v).1 = true ↔ v.targetFrameInterval ≤ t - v.lastFrameTime) ∧
      ((loopGate t v).1 = true → (loopGate t v).2 = { v with lastFrameTime := t }) ∧
      ((loopGate t v).1 = false → (loopGate t v).2 = v)) ∧
    (∀ v : AudioVisualizer,
      (updateSettings { frameRate := some 60 } v).targetFrameInterval = 1000 / 60 ∧
      (updateSettings { frameRate := some 60 } v).lastFrameTime = v.lastFrameTime) := by
  refine ⟨by norm_num [loopGateSeq, loopGate, initialVisualizer], fun t v => ?_, fun v => ?_⟩
  · unfold loopGate
    split_ifs with hlt
    · simp [not_le.mpr hlt]
    · simp [not_lt.mp hlt]
  · refine ⟨?_, updateSettings_lastFrameTime _ v⟩
    have h := updateSettings_interval_some { frameRate := some 60 } v 60 rfl (by decide)
    simpa using h

theorem c2_scheduler_amended_witness :
    ((loopGate 40 initialVisualizer).1 = true ↔
      (1000 / 30 : ℚ) ≤ 40 - 0) ∧
    (loopGate 40 initialVisualizer).2 = { initialVisualizer with lastFrameTime := 40 } ∧
    (loopGate 10 initialVisualizer).2 = initialVisualizer ∧
    (updateSettings { frameRate := some 60 } initialVisualizer).targetFrameInterval
        = 1000 / 60 := by
  have h := c2_scheduler_amended
  have h40 := h.2.1 40 initialVisualizer
  have h10 := h.2.1 10 initialVisualizer
  exact ⟨h40.1, h40.2.1 (by norm_num [loopGate, initialVisualizer]),
    h10.2.2 (by norm_num [loopGate, initialVisualizer]),
    (h.2.2 initialVisualizer).1⟩

theorem c9_update_settings_scheduling_witness :
    (updateSettings { frameRate := some 24 } initialVisualizer).targetFrameInterval
        = 1000 / (24 : ℚ) ∧
    (updateSettings { frameRate := some 24 } initialVisualizer).lastFrameTime = 0 ∧
    (updateSettings { barCount := some 32, width := some 1280 }
        initialVisualizer).targetFrameInterval = 1000 / 30 ∧
    (updateSettings { barCount := some 32, width := some 1280 }
        initialVisualizer).lastFrameTime = 0 := by
  have h1 := (c9_update_settings_scheduling { frameRate := some 24 } initialVisualizer).1
    24 rfl (by decide)
  have h2 := (c9_update_settings_scheduling { barCount := some 32, width := some 1280 }
    initialVisualizer).2 rfl
  exact ⟨h1.1, h1.2, h2.1, h2.2⟩

/-! ## Color schemes (`getColorScheme`, visualizer.js) -/

/-- A CSS color as produced by `getColorScheme`: either an `rgba(...)`
literal or an `hsla(hue, s%, l%, a)` value. -/
inductive Color where
  | rgba (r g b : ℕ) (a : ℚ)
  | hsla (hue : ℚ) (sat lig : ℕ) (a : ℚ)
deriving DecidableEq, Repr

/-- The `schemes.default` triple (4ourmedia Blue/Purple). -/
def defaultSchemeColors : List Color :=
  [.rgba 59 130 246 0.8, .rgba 139 92 246 0.7, .rgba 236 72 153 0.6]

/-- A value that the property read `schemes[colorTheme]` can produce: an
own theme key yields its color triple; the own key `rainbow` yields
`null`; a key naming a member of `Object.prototype` (which every object
literal inherits) yields that inherited function/object — truthy, but not
a color array; any other key yields `undefined`. -/
inductive SchemesValue where
  | colors (cs : List Color)
  | jsNull
  | inherited (name : String)
  | jsUndefined
deriving DecidableEq, Repr

/-- The member names of `Object.prototype` that a property read on an
object literal reaches through the prototype chain (each bound to a
function, except the accessor `__proto__` which yields
`Object.prototype` itself — all of them truthy values). -/
def objectPrototypeKeys : List String :=
  ["constructor", "toString", "toLocaleString", "valueOf", "hasOwnProperty",
   "isPrototypeOf", "propertyIsEnumerable", "__defineGetter__", "__defineSetter__",
   "__lookupGetter__", "__lookupSetter__", "__proto__"]

/-- The property read `schemes[k]` on the `schemes` object literal of
`getColorScheme`, including the prototype chain: the six color themes are
own keys bound to triples, `rainbow` is an own key bound to `null`, the
`Object.prototype` member names yield the inherited member, and every
other key yields `undefined`. -/
def schemesLookup (k : String) : SchemesValue :=
  if k = "default" then .colors defaultSchemeColors
  else if k = "fire" then
    .colors [.rgba 255 69 0 0.8, .rgba 255 140 0 0.7, .rgba 255 215 0 0.6]
  else if k = "ocean" then
    .colors [.rgba 0 119 182 0.8, .rgba 0 180 216 0.7, .rgba 72 202 228 0.6]
  else if k = "forest" then
    .colors [.rgba 34 139 34 0.8, .rgba 50 205 50 0.7, .rgba 144 238 144 0.6]
  else if k = "sunset" then
    .colors [.rgba 255 94 77 0.8, .rgba 251 133 0 0.7, .rgba 255 193 7 0.6]
  else if k = "neon" then
    .colors [.rgba 57 255 20 0.8, .rgba 255 20 147 0.7, .rgba 0 191 255 0.6]
  else if k = "rainbow" then .jsNull
  else if k ∈ objectPrototypeKeys then .inherited k
  else .jsUndefined

/-- What `getColorScheme` can return: a color array (the normal case), or
— for a theme string naming an `Object.prototype` member — the truthy
inherited value, which is not a color array at all. -/
inductive ColorScheme where
  | colors (cs : List Color)
  | inherited (name : String)
deriving DecidableEq, Repr

/-- Truncation toward zero, as performed by the quotient underlying the
JS `%` operator on numbers. -/
def ratTrunc (q : ℚ) : ℤ := if q < 0 then -⌊-q⌋ else ⌊q⌋

/-- The JS remainder operator `%` on numbers: `a - b * trunc(a / b)`. -/
def jsMod (a b : ℚ) : ℚ := a - b * (ratTrunc (a / b) : ℚ)

/-- Source `getColorScheme` (visualizer.js): the rainbow theme recomputes three
`hsla` stops as `hue = (animationFrame * animationSpeed + i * 120) % 360`
for `i = 0, 1, 2`; any other theme evaluates
`schemes[colorTheme] || schemes.default`, so a falsy lookup (`null` for
the `rainbow` key, `undefined` for an unknown key or a null theme) falls
back to the default triple, while a truthy lookup — a theme triple or a
member inherited from `Object.prototype` — is returned as is. -/
def getColorScheme (v : AudioVisualizer) : ColorScheme :=
  if v.settings.colorTheme = some "rainbow" then
    .colors ((List.range 3).map fun i =>
      .hsla (jsMod (v.animationFrame * v.settings.animationSpeed + (i : ℚ) * 120) 360) 80 60 0.8)
  else
    match v.settings.colorTheme with
    | some k =>
      match schemesLookup k with
      | .colors cs => .colors cs
      | .inherited name => .inherited name
      | .jsNull => .colors defaultSchemeColors
      | .jsUndefined => .colors defaultSchemeColors
    | none => .colors defaultSchemeColors

/-- Claim C5: with the rainbow theme, `getColorScheme` is a function of
the accumulated animation phase and `animationSpeed` only — two states
with the same phase and speed but arbitrary (different) spectrum data
yield identical triples — and the hues are
`(phase · speed + 0 / 120 / 240) mod 360` at 80% saturation, 60%
lightness, 0.8 alpha. -/
theorem c5_rainbow_noninterference (v1 v2 : AudioVisualizer)
    (h1 : v1.settings.colorTheme = some "rainbow")
    (h2 : v2.settings.colorTheme = some "rainbow")
    (hphase : v1.animationFrame = v2.animationFrame)
    (hspeed : v1.settings.animationSpeed = v2.settings.animationSpeed) :
    getColorScheme v1 = getColorScheme v2 ∧
    getColorScheme v1 = .colors
      [.hsla (jsMod (v1.animationFrame * v1.settings.animationSpeed + 0) 360) 80 60 0.8,
       .hsla (jsMod (v1.animationFrame * v1.settings.animationSpeed + 120) 360) 80 60 0.8,
       .hsla (jsMod (v1.animationFrame * v1.settings.animationSpeed + 240) 360) 80 60 0.8] := by
  have hrange : List.range 3 = [0, 1, 2] := rfl
  constructor
  · simp [getColorScheme, h1, h2, hphase, hspeed]
  · simp only [getColorScheme, h1, if_pos, hrange, List.map_cons, List.map_nil]
    norm_num

theorem c5_rainbow_noninterference_witness :
    getColorScheme
      { settings := { defaultSettings with colorTheme := some "rainbow", animationSpeed := 2 },
        canvasWidth := 640, canvasHeight := 480, dataArray := some [0, 0, 0],
        bufferLength := 3, lastFrameTime := 0, targetFrameInterval := 1000 / 30,
        animationFrame := 45, backgroundNeedsUpdate := true } =
    getColorScheme
      { settings := { defaultSettings with colorTheme := some "rainbow", animationSpeed := 2 },
        canvasWidth := 1280, canvasHeight := 720, dataArray := some [255, 7],
        bufferLength := 2, lastFrameTime := 99, targetFrameInterval := 1000 / 60,
        animationFrame := 45, backgroundNeedsUpdate := false } :=
  (c5_rainbow_noninterference _ _ rfl rfl rfl rfl).1

/-- With a non-rainbow theme string, `getColorScheme` is the
`schemes[k] || schemes.default` evaluation over the lookup result. -/
theorem getColorScheme_lookup (v : AudioVisualizer) (k : String)
    (hct : v.settings.colorTheme = some k) (hrb : k ≠ "rainbow") :
    getColorScheme v =
      match schemesLookup k with
      | .colors cs => .colors cs
      | .inherited name => .inherited name
      | .jsNull => .colors defaultSchemeColors
      | .jsUndefined => .colors defaultSchemeColors := by
  unfold getColorScheme
  rw [if_neg (by rw [hct]; simpa using hrb), hct]

/-- Every color triple stored in the `schemes` literal has 3 entries. -/
theorem schemesLookup_colors_length (k : String) (cs : List Color)
    (h : schemesLookup k = .colors cs) : cs.length = 3 := by
  unfold schemesLookup at h
  split_ifs at h <;> injection h with h2 <;> subst h2 <;> rfl

/-- The lookup reaches an inherited member only for an
`Object.prototype` member name. -/
theorem schemesLookup_inherited_mem (k name : String)
    (h : schemesLookup k = .inherited name) : k ∈ objectPrototypeKeys := by
  unfold schemesLookup at h
  split_ifs at h with h1 h2 h3 h4 h5 h6 h7 h8
  exact h8

/-- Claim C10, counterexample: for the out-of-set theme string
`"constructor"`, the source's `schemes[colorTheme]` reaches the
`Object.prototype` member inherited by the object literal — a truthy
value — so `|| schemes.default` is bypassed and `getColorScheme` returns
that inherited non-array value instead of a 3-color list or the default
scheme, falsifying the claim at a concrete input. -/
theorem c10_color_scheme_counterexample :
    getColorScheme { initialVisualizer with
        settings := { defaultSettings with colorTheme := some "constructor" } }
      = .inherited "constructor" ∧
    getColorScheme { initialVisualizer with
        settings := { defaultSettings with colorTheme := some "constructor" } }
      ≠ .colors defaultSchemeColors := by
  constructor
  · rfl
  · intro h
    exact absurd (rfl.trans h :
      (ColorScheme.inherited "constructor") = .colors defaultSchemeColors) (by simp)

/-- Claim C10 (amended): for every `colorTheme` that does not name a
member of `Object.prototype` — each documented theme, any other
unrecognized string, or a null theme — `getColorScheme` returns a list of
exactly 3 colors (so the `colors[0..2]` accesses of the draw routines are
in bounds), an unrecognized or null theme falling back to the default
scheme; but for a theme naming an `Object.prototype` member the lookup is
truthy, `|| schemes.default` is bypassed, and `getColorScheme` returns
the inherited value, which is not a color list. -/
theorem c10_color_scheme_amended (v : AudioVisualizer) :
    ((∀ k ∈ objectPrototypeKeys, v.settings.colorTheme ≠ some k) →
      ∃ cs : List Color, getColorScheme v = .colors cs ∧ cs.length = 3) ∧
    ((∀ k ∈ ["default", "fire", "ocean", "forest", "sunset", "neon", "rainbow"] ++
        objectPrototypeKeys, v.settings.colorTheme ≠ some k) →
      getColorScheme v = .colors defaultSchemeColors) ∧
    (∀ k ∈ objectPrototypeKeys, v.settings.colorTheme = some k →
      getColorScheme v = .inherited k) := by
  refine ⟨?_, ?_, ?_⟩
  · intro hproto
    rcases hct : v.settings.colorTheme with _ | k
    · exact ⟨defaultSchemeColors, by simp [getColorScheme, hct], rfl⟩
    · by_cases hrb : k = "rainbow"
      · subst hrb
        refine ⟨(List.range 3).map fun i =>
            Color.hsla (jsMod (v.animationFrame * v.settings.animationSpeed + (i : ℚ) * 120)
              360) 80 60 0.8, ?_, rfl⟩
        unfold getColorScheme
        rw [if_pos hct]
      · have hmem : k ∉ objectPrototypeKeys := fun hm => hproto k hm hct
        cases hsl : schemesLookup k with
        | colors cs =>
          exact ⟨cs, by rw [getColorScheme_lookup v k hct hrb, hsl],
            schemesLookup_colors_length k cs hsl⟩
        | jsNull =>
          exact ⟨defaultSchemeColors, by rw [getColorScheme_lookup v k hct hrb, hsl], rfl⟩
        | inherited name =>
          exact absurd (schemesLookup_inherited_mem k name hsl) hmem
        | jsUndefined =>
          exact ⟨defaultSchemeColors, by rw [getColorScheme_lookup v k hct hrb, hsl], rfl⟩
  · intro hunrec
    rcases hct : v.settings.colorTheme with _ | k
    · simp [getColorScheme, hct]
    · have hk : ∀ key ∈ ["default", "fire", "ocean", "forest", "sunset", "neon", "rainbow"] ++
          objectPrototypeKeys, k ≠ key := by
        intro key hkey heq
        exact hunrec key hkey (by rw [hct, heq])
      have hrb : k ≠ "rainbow" := hk "rainbow" (by decide)
      have hmem : k ∉ objectPrototypeKeys := fun hm =>
        hk k (List.mem_append_right _ hm) rfl
      rw [getColorScheme_lookup v k hct hrb]
      unfold schemesLookup
      rw [if_neg (hk "default" (by decide)), if_neg (hk "fire" (by decide)),
        if_neg (hk "ocean" (by decide)), if_neg (hk "forest" (by decide)),
        if_neg (hk "sunset" (by decide)), if_neg (hk "neon" (by decide)),
        if_neg hrb, if_neg hmem]
  · intro k hk hct
    fin_cases hk <;>
      · rw [getColorScheme_lookup v _ hct (by decide)]
        rfl

theorem c10_color_scheme_amended_witness :
    (∃ cs : List Color,
      getColorScheme { initialVisualizer with
          settings := { defaultSettings with colorTheme := some "purple" } } = .colors cs ∧
      cs.length = 3) ∧
    getColorScheme { initialVisualizer with
        settings := { defaultSettings with colorTheme := some "purple" } }
      = .colors defaultSchemeColors ∧
    getColorScheme { initialVisualizer with
        settings := { defaultSettings with colorTheme := some "toString" } }
      = .inherited "toString" := by
  refine ⟨(c10_color_scheme_amended _).1 ?_, (c10_color_scheme_amended _).2.1 ?_,
    (c10_color_scheme_amended _).2.2 "toString" ?_ rfl⟩
  · decide
  · decide
  · decide

/-! ## Bar layout and draw geometry (visualizer.js) -/

/-- Source `barsToUse = Math.min(this.settings.barCount, this.bufferLength)`. -/
def barsToUse (barCount bufferLength : ℕ) : ℕ := min barCount bufferLength

/-- Source `totalGapSpace = (barsToUse - 1) * (canvasWidth / barsToUse) * 0.2`
(drawGradientBars / drawSolidBars). -/
def totalGapSpace (n : ℕ) (W : ℚ) : ℚ := ((n : ℚ) - 1) * (W / (n : ℚ)) * 0.2

/-- Source `availableSpace = canvasWidth - totalGapSpace`. -/
def availableSpace (n : ℕ) (W : ℚ) : ℚ := W - totalGapSpace n W

/-- Source `barWidth = availableSpace / barsToUse`. -/
def barWidth (n : ℕ) (W : ℚ) : ℚ := availableSpace n W / (n : ℚ)

/-- Source `gap = (canvasWidth / barsToUse) * 0.2`. -/
def gapWidth (n : ℕ) (W : ℚ) : ℚ := (W / (n : ℚ)) * 0.2

/-- Claim C4: for the gradient/solid bar layout, `barsToUse` bar widths
plus `barsToUse − 1` gaps sum exactly to the surface width in exact
rational arithmetic, whenever `barCount ≤ spectrumLength`,
`barsToUse ≥ 1` and the surface width is positive. -/
theorem c4_bar_layout_total_width (bc len : ℕ) (W : ℚ)
    (hle : bc ≤ len) (h1 : 1 ≤ bc) (_hW : 0 < W) :
    (barsToUse bc len : ℚ) * barWidth (barsToUse bc len) W +
      ((barsToUse bc len : ℚ) - 1) * gapWidth (barsToUse bc len) W = W := by
  have hbc : barsToUse bc len = bc := min_eq_left hle
  have hne : (bc : ℚ) ≠ 0 := Nat.cast_ne_zero.mpr (Nat.one_le_iff_ne_zero.mp h1)
  rw [hbc]
  unfold barWidth availableSpace totalGapSpace gapWidth
  field_simp
  ring

theorem c4_bar_layout_total_width_witness :
    (barsToUse 4 8 : ℚ) * barWidth (barsToUse 4 8) 100 +
      ((barsToUse 4 8 : ℚ) - 1) * gapWidth (barsToUse 4 8) 100 = 100 :=
  c4_bar_layout_total_width 4 8 100 (by norm_num) (by norm_num) (by norm_num)

/-- An axis-aligned filled rectangle, as passed to `ctx.fillRect`. -/
structure Rect where
  x : ℚ
  y : ℚ
  w : ℚ
  h : ℚ
deriving DecidableEq, Repr

/-- The inline spectrum read of the bar styles:
`this.dataArray ? this.dataArray[dataIndex] * this.settings.sensitivity : 10`. -/
def barSample (d : Option (List ℕ)) (sens : ℚ) (idx : ℕ) : ℚ :=
  match d with
  | some arr => (arr.getD idx 0 : ℚ) * sens
  | none => 10

/-- The inline spectrum read of `drawCircularBars`:
`this.dataArray ? this.dataArray[dataIndex] : 0`. -/
def circleSample (d : Option (List ℕ)) (idx : ℕ) : ℚ :=
  match d with
  | some arr => (arr.getD idx 0 : ℚ)
  | none => 0

/-- The inline spectrum read of `drawWaveForm`:
`this.dataArray ? this.dataArray[i] / 255 : 0.5`. -/
def waveSample (d : Option (List ℕ)) (idx : ℕ) : ℚ :=
  match d with
  | some arr => (arr.getD idx 0 : ℚ) / 255
  | none => 0.5

/-- The inline spectrum read of `drawSpectrum`:
`this.dataArray ? this.dataArray[dataIndex] * sensitivity * 0.3 : 0`. -/
def spectrumSample (d : Option (List ℕ)) (sens : ℚ) (idx : ℕ) : ℚ :=
  match d with
  | some arr => (arr.getD idx 0 : ℚ) * sens * 0.3
  | none => 0

/-- Source `drawBarRect` (visualizer.js): the rectangle filled for one bar,
anchored per `settings.position` (top grows downward from y = 0, center
grows symmetrically around mid-height, default grows up from the bottom). -/
def drawBarRect (v : AudioVisualizer) (x width height : ℚ) : Rect :=
  if v.settings.position = "top" then ⟨x, 0, width, height⟩
  else if v.settings.position = "center" then ⟨x, (v.canvasHeight - height) / 2, width, height⟩
  else ⟨x, v.canvasHeight - height, width, height⟩

/-- One run of the `drawBarsSet` closure shared by the two bar styles:
bar `i` reads sample index `Math.floor(i / barsToUse * bufferLength)`
(equal to the natural-number division `i * bufferLength / barsToUse`) and
is placed at the mutable cursor `x`, written in closed form as
`startX + i * (barWidth + gap) * direction`. -/
def drawBarsSet (v : AudioVisualizer) (barW gapW : ℚ) (n : ℕ)
    (startX direction : ℚ) : List Rect :=
  (List.range n).map fun i =>
    let dataIndex := i * v.bufferLength / n
    let barHeight := barSample v.dataArray v.settings.sensitivity dataIndex
    drawBarRect v (startX + (i : ℚ) * (barW + gapW) * direction) barW barHeight

/-- Source `ctx.scale`: device position of a user-space point under a scale. -/
def canvasScale (sx sy : ℚ) (p : ℚ × ℚ) : ℚ × ℚ := (sx * p.1, sy * p.2)

/-- Source `ctx.translate`: device position of a user-space point under a
translation. -/
def canvasTranslate (tx ty : ℚ) (p : ℚ × ℚ) : ℚ × ℚ := (p.1 + tx, p.2 + ty)

/-- Device position of a point drawn after
`ctx.scale(-1, 1); ctx.translate(-canvas.width, 0)` — the transform of the
second (mirrored) pass in horizontal mirror mode. -/
def mirrorHTransform (W : ℚ) (p : ℚ × ℚ) : ℚ × ℚ :=
  canvasScale (-1) 1 (canvasTranslate (-W) 0 p)

/-- Device position of a point drawn after
`ctx.scale(1, -1); ctx.translate(0, -canvas.height)` — the transform of
the second pass in vertical mirror mode. -/
def mirrorVTransform (H : ℚ) (p : ℚ × ℚ) : ℚ × ℚ :=
  canvasScale 1 (-1) (canvasTranslate 0 (-H) p)

/-- Device-space image of a filled rect under the horizontal mirror pass:
the x-flip maps the rect's right edge to the left edge of its image, so
the image is anchored at the transform of the top-right corner. -/
def mirrorRectH (W : ℚ) (r : Rect) : Rect :=
  ⟨(mirrorHTransform W (r.x + r.w, r.y)).1, (mirrorHTransform W (r.x + r.w, r.y)).2, r.w, r.h⟩

/-- Device-space image of a filled rect under the vertical mirror pass:
the y-flip maps the rect's bottom edge to the top edge of its image. -/
def mirrorRectV (H : ℚ) (r : Rect) : Rect :=
  ⟨(mirrorVTransform H (r.x, r.y + r.h)).1, (mirrorVTransform H (r.x, r.y + r.h)).2, r.w, r.h⟩

/-- Source `applyMirrorMode` (visualizer.js): horizontal draws the set once from
the horizontal center, then repeats the identical draw call with the flip
transform applied; vertical draws from x = 0 and repeats under the y-flip;
any other mode draws once from x = 0. -/
def applyMirrorMode (v : AudioVisualizer) (drawFn : ℚ → ℚ → List Rect) : List Rect :=
  if v.settings.mirrorMode = "horizontal" then
    let centerX := v.canvasWidth / 2
    drawFn centerX 1 ++ (drawFn centerX 1).map (mirrorRectH v.canvasWidth)
  else if v.settings.mirrorMode = "vertical" then
    drawFn 0 1 ++ (drawFn 0 1).map (mirrorRectV v.canvasHeight)
  else
    drawFn 0 1

/-- Source `drawGradientBars` (visualizer.js), geometry part: the rectangles
filled by one frame of the gradient bar style (the 3-stop gradient and the
glow shadow affect paint only, not geometry). -/
def drawGradientBars (v : AudioVisualizer) : List Rect :=
  let n := barsToUse v.settings.barCount v.bufferLength
  applyMirrorMode v fun startX direction =>
    drawBarsSet v (barWidth n v.canvasWidth) (gapWidth n v.canvasWidth) n startX direction

/-- Source `drawSolidBars` (visualizer.js), geometry part: the same layout
computation restated from its own source lines (the per-bar solid color
affects paint only). -/
def drawSolidBars (v : AudioVisualizer) : List Rect :=
  let n := barsToUse v.settings.barCount v.bufferLength
  applyMirrorMode v fun startX direction =>
    drawBarsSet v (barWidth n v.canvasWidth) (gapWidth n v.canvasWidth) n startX direction

/-- A radial stroke of `drawCircularBars`, recorded in polar form about
the canvas center: `turn` is the angle as the fraction `i / barsToUse` of
a full revolution, and the segment runs from radius `rInner` to `rOuter`. -/
structure RadialSeg where
  turn : ℚ
  rInner : ℚ
  rOuter : ℚ
deriving DecidableEq, Repr

/-- Source `drawCircularBars` (visualizer.js): radial segments from a ring of
radius `min(halfW, halfH) − 50` outward by `amplitude · sensitivity · 0.5`. -/
def drawCircularBars (v : AudioVisualizer) : List RadialSeg :=
  let radius := min (v.canvasWidth / 2) (v.canvasHeight / 2) - 50
  let n := barsToUse v.settings.barCount v.bufferLength
  (List.range n).map fun i =>
    let dataIndex := i * v.bufferLength / n
    let barHeight := circleSample v.dataArray dataIndex * v.settings.sensitivity * 0.5
    ⟨(i : ℚ) / (n : ℚ), radius, radius + barHeight⟩

/-- One vertex of the `drawWaveForm` polyline. -/
structure WavePoint where
  x : ℚ
  y : ℚ
deriving DecidableEq, Repr

/-- Source `drawWaveForm` (visualizer.js): a single polyline with one vertex per
spectrum sample (not bounded by `barCount`), with a position-dependent
midline shift of a quarter height. -/
def drawWaveForm (v : AudioVisualizer) : List WavePoint :=
  let sliceWidth := v.canvasWidth / (v.bufferLength : ℚ)
  let yOffset : ℚ :=
    if v.settings.position = "top" then -v.canvasHeight / 4
    else if v.settings.position = "bottom" then v.canvasHeight / 4
    else 0
  (List.range v.bufferLength).map fun i =>
    let sample := waveSample v.dataArray i
    ⟨(i : ℚ) * sliceWidth,
      v.canvasHeight / 2 + yOffset + sample * v.canvasHeight / 3 * v.settings.sensitivity
        - v.canvasHeight / 6⟩

/-- One vertex of a `drawSpectrum` ring, in polar form about the center. -/
structure PolarPoint where
  turn : ℚ
  radius : ℚ
deriving DecidableEq, Repr

/-- Source `drawSpectrum` (visualizer.js): three concentric closed rings, ring
`ring` at base radius `maxRadius * (0.3 + ring * 0.25)` with `barsToUse`
vertices perturbed outward by `amplitude * (ring + 1) * 0.5`. -/
def drawSpectrum (v : AudioVisualizer) : List (List PolarPoint) :=
  let maxRadius := min (v.canvasWidth / 2) (v.canvasHeight / 2) - 20
  let n := barsToUse v.settings.barCount v.bufferLength
  (List.range 3).map fun ring =>
    let ringRadius := maxRadius * (0.3 + (ring : ℚ) * 0.25)
    (List.range n).map fun i =>
      let dataIndex := i * v.bufferLength / n
      let amplitude := spectrumSample v.dataArray v.settings.sensitivity dataIndex
      ⟨(i : ℚ) / (n : ℚ), ringRadius + amplitude * ((ring : ℚ) + 1) * 0.5⟩

/-- An AudioVisualizer with no analyzer attached: `dataArray` is null and
`bufferLength` is 0, as the constructor leaves them before `setupAudio`. -/
def noAnalyzerState (s : Settings) (w hgt lft tfi af : ℚ) (b : Bool) : AudioVisualizer :=
  { settings := s, canvasWidth := w, canvasHeight := hgt, dataArray := none,
    bufferLength := 0, lastFrameTime := lft, targetFrameInterval := tfi,
    animationFrame := af, backgroundNeedsUpdate := b }

/-- Claim C6: when no analyzer is attached (`dataArray` null,
`bufferLength` 0), every spectrum read of the draw routines substitutes
its constant fallback (10 for the bar styles, 0 for the circle style, 0.5
for the wave, 0 for the spectrum rings) instead of failing, and for every
settings value each of the five styles' draw pass is total and completes
with a well-defined (empty) geometry. -/
theorem c6_no_analyzer_fallback (s : Settings) (w hgt lft tfi af : ℚ) (b : Bool) :
    drawGradientBars (noAnalyzerState s w hgt lft tfi af b) = [] ∧
    drawSolidBars (noAnalyzerState s w hgt lft tfi af b) = [] ∧
    drawCircularBars (noAnalyzerState s w hgt lft tfi af b) = [] ∧
    drawWaveForm (noAnalyzerState s w hgt lft tfi af b) = [] ∧
    drawSpectrum (noAnalyzerState s w hgt lft tfi af b) = [[], [], []] ∧
    (∀ (sens : ℚ) (idx : ℕ),
      barSample none sens idx = 10 ∧ circleSample none idx = 0 ∧
      waveSample none idx = 1 / 2 ∧ spectrumSample none sens idx = 0) := by
  have hn : barsToUse s.barCount 0 = 0 := Nat.min_zero s.barCount
  refine ⟨?_, ?_, ?_, ?_, ?_, fun sens idx => ?_⟩
  · unfold drawGradientBars applyMirrorMode drawBarsSet noAnalyzerState
    dsimp only
    rw [hn]
    split_ifs <;> simp
  · unfold drawSolidBars applyMirrorMode drawBarsSet noAnalyzerState
    dsimp only
    rw [hn]
    split_ifs <;> simp
  · unfold drawCircularBars noAnalyzerState
    dsimp only
    rw [hn]
    simp
  · unfold drawWaveForm noAnalyzerState
    dsimp only
    simp
  · unfold drawSpectrum noAnalyzerState
    dsimp only
    rw [hn]
    rfl
  · refine ⟨rfl, rfl, ?_, rfl⟩
    unfold waveSample
    norm_num

/-- A point of the drawing surface lies in a filled rectangle. -/
def inRect (p : ℚ × ℚ) (r : Rect) : Prop :=
  r.x ≤ p.1 ∧ p.1 ≤ r.x + r.w ∧ r.y ≤ p.2 ∧ p.2 ≤ r.y + r.h

/-- Reflection of a surface point across the vertical centerline
`x = W / 2`. -/
def reflectPointX (W : ℚ) (p : ℚ × ℚ) : ℚ × ℚ := (2 * (W / 2) - p.1, p.2)

/-- Reflection of a surface point across the horizontal centerline
`y = H / 2`. -/
def reflectPointY (H : ℚ) (p : ℚ × ℚ) : ℚ × ℚ := (p.1, 2 * (H / 2) - p.2)

/-- Claim C7: in horizontal (resp. vertical) mirror mode, one bar-style
frame is the first pass followed by a second pass that is the exact
geometric reflection of the first across the vertical (resp. horizontal)
centerline: the second pass is `mirrorRectH`/`mirrorRectV` mapped over the
very same first-pass list computed from the frame's `dataArray` (not an
independent re-sample), a point lies in a mirrored rectangle iff its
reflection across the centerline lies in the original, and each mirrored
rectangle keeps its width and height (identical magnitudes per bar). -/
theorem c7_mirror_reflection (v : AudioVisualizer) :
    (v.settings.mirrorMode = "horizontal" →
      drawGradientBars v =
        (let n := barsToUse v.settings.barCount v.bufferLength
         let pass := drawBarsSet v (barWidth n v.canvasWidth) (gapWidth n v.canvasWidth) n
           (v.canvasWidth / 2) 1
         pass ++ pass.map (mirrorRectH v.canvasWidth)) ∧
      drawSolidBars v =
        (let n := barsToUse v.settings.barCount v.bufferLength
         let pass := drawBarsSet v (barWidth n v.canvasWidth) (gapWidth n v.canvasWidth) n
           (v.canvasWidth / 2) 1
         pass ++ pass.map (mirrorRectH v.canvasWidth))) ∧
    (v.settings.mirrorMode = "vertical" →
      drawGradientBars v =
        (let n := barsToUse v.settings.barCount v.bufferLength
         let pass := drawBarsSet v (barWidth n v.canvasWidth) (gapWidth n v.canvasWidth) n 0 1
         pass ++ pass.map (mirrorRectV v.canvasHeight)) ∧
      drawSolidBars v =
        (let n := barsToUse v.settings.barCount v.bufferLength
         let pass := drawBarsSet v (barWidth n v.canvasWidth) (gapWidth n v.canvasWidth) n 0 1
         pass ++ pass.map (mirrorRectV v.canvasHeight))) ∧
    (∀ (W : ℚ) (r : Rect) (p : ℚ × ℚ),
      inRect p (mirrorRectH W r) ↔ inRect (reflectPointX W p) r) ∧
    (∀ (H : ℚ) (r : Rect) (p : ℚ × ℚ),
      inRect p (mirrorRectV H r) ↔ inRect (reflectPointY H p) r) ∧
    (∀ (W : ℚ) (r : Rect), (mirrorRectH W r).w = r.w ∧ (mirrorRectH W r).h = r.h) ∧
    (∀ (H : ℚ) (r : Rect), (mirrorRectV H r).w = r.w ∧ (mirrorRectV H r).h = r.h) := by
  refine ⟨fun hm => ?_, fun hm => ?_, fun W r p => ?_, fun H r p => ?_,
    fun W r => ⟨rfl, rfl⟩, fun H r => ⟨rfl, rfl⟩⟩
  · constructor <;>
      · simp only [drawGradientBars, drawSolidBars, applyMirrorMode]
        rw [if_pos hm]
  · have hm2 : v.settings.mirrorMode ≠ "horizontal" := by rw [hm]; decide
    constructor <;>
      · simp only [drawGradientBars, drawSolidBars, applyMirrorMode]
        rw [if_neg hm2, if_pos hm]
  · unfold inRect mirrorRectH mirrorHTransform canvasScale canvasTranslate reflectPointX
    dsimp only
    constructor <;> rintro ⟨ha, hb, hc, hd⟩ <;>
      exact ⟨by linarith, by linarith, by linarith, by linarith⟩
  · unfold inRect mirrorRectV mirrorVTransform canvasScale canvasTranslate reflectPointY
    dsimp only
    constructor <;> rintro ⟨ha, hb, hc, hd⟩ <;>
      exact ⟨by linarith, by linarith, by linarith, by linarith⟩

theorem c7_mirror_reflection_witness :
    (drawGradientBars { initialVisualizer with
        settings := { defaultSettings with mirrorMode := "horizontal", barCount := 2 },
        dataArray := some [4, 8], bufferLength := 2 } =
      (let n := barsToUse 2 2
       let pass := drawBarsSet { initialVisualizer with
           settings := { defaultSettings with mirrorMode := "horizontal", barCount := 2 },
           dataArray := some [4, 8], bufferLength := 2 }
         (barWidth n 640) (gapWidth n 640) n (640 / 2) 1
       pass ++ pass.map (mirrorRectH 640))) ∧
    (inRect (1, 2) (mirrorRectH 10 ⟨3, 0, 4, 5⟩) ↔
      inRect (reflectPointX 10 (1, 2)) ⟨3, 0, 4, 5⟩) := by
  exact ⟨((c7_mirror_reflection _).1 rfl).1,
    (c7_mirror_reflection initialVisualizer).2.2.1 10 ⟨3, 0, 4, 5⟩ (1, 2)⟩

end AudioViz
